import Mathlib

/-!
# Verification of the AffinityMCP protocol/dispatch core

A shallow embedding, in Lean 4, of the protocol-dispatch and batch-scheduling
core of the AffinityMCP server (`src/mcp.rs`, `src/tools/affinity.rs`,
`src/tools/canva.rs`), together with proofs of the behavioural properties the
specification states about it.

Modelling conventions:
* `serde_json::Value` is modelled by the inductive type `Json`.
* Rust `Result<T>` (with `anyhow::Error`) is modelled by `Except String T`;
  JSON-RPC level errors by `Except JsonRpcError Json`.
* The external effects of one action — `std::fs::canonicalize` plus the
  `osascript` invocation in `run_applescript` — are abstracted as an oracle
  function (an "action capability"): `OpenAction` receives the resolved
  application name and the requested path, `ExportAction` the requested path,
  the format string and the effective quality, and either succeeds or fails
  with a message.  Everything the Rust code does around that oracle
  (application inference, truncation, result assembly, counting) is embedded
  verbatim.
* `futures::future::join_all` resolves the spawned futures and yields their
  outputs **in the order the futures were given**, independently of completion
  order; its sequential model is therefore `List.map` over the request list.
* Rust `String`/`&str` is modelled by Lean `String`; `str::to_lowercase` and
  `str::ends_with` are modelled character-wise on `String.data`.
-/

/-! ## JSON values (model of `serde_json::Value`) -/

/-- Model of `serde_json::Value`.  Objects are association lists (serde maps
cannot hold duplicate keys; lookup finds the unique binding). -/
inductive Json where
  | null
  | bool (b : Bool)
  | num (n : Int)
  | str (s : String)
  | arr (elems : List Json)
  | obj (fields : List (String × Json))

/-- Key lookup in the field list of a JSON object (model of
`serde_json::Map::get`). -/
def lookupField : List (String × Json) → String → Option Json
  | [], _ => none
  | (k, v) :: rest, key => if k = key then some v else lookupField rest key

/-- Model of `Value::get(key)`: field lookup on objects, `None` on anything
else. -/
def Json.get (v : Json) (key : String) : Option Json :=
  match v with
  | .obj fields => lookupField fields key
  | _ => none

/-- Model of `Value::as_str()`. -/
def Json.as_str : Json → Option String
  | .str s => some s
  | _ => none

/-! ## JSON-RPC errors (model of `jsonrpc_core::Error`) -/

/-- Model of `jsonrpc_core::Error` (the `data` field is always `None` in the
errors this server builds, so it is omitted). -/
structure JsonRpcError where
  code : Int
  message : String
deriving DecidableEq

/-- Model of `jsonrpc_core::Error::invalid_params(msg)`:
`ErrorCode::InvalidParams` is `-32602`. -/
def invalid_params (msg : String) : JsonRpcError :=
  { code := -32602, message := msg }

/-- Model of `jsonrpc_core::Error::internal_error()`:
`ErrorCode::InternalError` is `-32603` with the fixed description
`"Internal error"`; it carries no cause. -/
def internal_error : JsonRpcError :=
  { code := -32603, message := "Internal error" }

/-! ## Affinity data model (`src/tools/affinity.rs`) -/

/-- Model of `enum AffinityApp { Photo, Designer, Publisher }`. -/
inductive AffinityApp where
  | Photo
  | Designer
  | Publisher
deriving DecidableEq

/-- Model of `AffinityApp::app_name`. -/
def AffinityApp.app_name : AffinityApp → String
  | .Photo => "Affinity Photo"
  | .Designer => "Affinity Designer"
  | .Publisher => "Affinity Publisher"

/-- Model of `struct OpenFileParams { path, app }`. -/
structure OpenFileParams where
  path : String
  app : Option AffinityApp
deriving DecidableEq

/-- Model of `struct OpenFileResult { opened, app, path }`. -/
structure OpenFileResult where
  opened : Bool
  app : String
  path : String
deriving DecidableEq

/-- Model of `enum ExportFormat { Pdf, Png, Jpg, Tiff, Svg }`. -/
inductive ExportFormat where
  | Pdf
  | Png
  | Jpg
  | Tiff
  | Svg
deriving DecidableEq

/-- Model of `struct ExportParams { path, format, quality }` (`quality` is a
`u8`; its numeric width is irrelevant here, so `Nat` is used). -/
structure ExportParams where
  path : String
  format : ExportFormat
  quality : Option Nat
deriving DecidableEq

/-- Model of `struct ExportResult { exported, path }`. -/
structure ExportResult where
  exported : Bool
  path : String
deriving DecidableEq

/-- Model of `struct BatchOpenFilesParams { paths, app }`.  Deserialization
puts no bound on `paths.length`; the `maxItems: 16` in the advertised schema
is advisory only. -/
structure BatchOpenFilesParams where
  paths : List String
  app : Option AffinityApp

/-- Model of `struct BatchOpenFilesResult { success_count, failure_count,
results }`. -/
structure BatchOpenFilesResult where
  success_count : Nat
  failure_count : Nat
  results : List OpenFileResult
deriving DecidableEq

/-- Model of `struct BatchExportParams { exports }`. -/
structure BatchExportParams where
  exports : List ExportParams

/-- Model of `struct BatchExportResult { success_count, failure_count,
results }`. -/
structure BatchExportResult where
  success_count : Nat
  failure_count : Nat
  results : List ExportResult
deriving DecidableEq

/-! ## String helpers (models of the Rust `str` methods used) -/

/-- Model of `str::to_lowercase` (character-wise lowering; the paths and
extensions involved are ASCII, where this coincides with Rust's Unicode
lowering). -/
def to_lowercase (s : String) : String :=
  ⟨s.data.map Char.toLower⟩

/-- Model of `str::ends_with`: the pattern's character sequence is a suffix
of the string's character sequence. -/
def ends_with (s pat : String) : Bool :=
  pat.data.isSuffixOf s.data

/-! ## Application inference (`detect_app_from_path`, affinity.rs:170-184) -/

/-- Model of `fn detect_app_from_path(path: &str) -> &'static str`. -/
def detect_app_from_path (path : String) : String :=
  let path_lower := to_lowercase path
  if ends_with path_lower ".afphoto" || ends_with path_lower ".afdesign"
      || ends_with path_lower ".afpub" then
    if ends_with path_lower ".afphoto" then
      "Affinity Photo"
    else if ends_with path_lower ".afdesign" then
      "Affinity Designer"
    else
      "Affinity Publisher"
  else
    -- デフォルトはPhoto
    "Affinity Photo"

/-! ## Single-item executors (`open_file`, `export`) -/

/-- The action capability behind `open_file` on macOS: canonicalizing the
path and running the generated AppleScript through `osascript`, given the
resolved application name and the requested path.  It either succeeds or
reports a failure message. -/
def OpenAction : Type := String → String → Except String Unit

/-- Model of `pub async fn open_file` (the macOS branch, affinity.rs:112-154),
parameterized by the action capability.  The application is taken from
`params.app` when present and inferred from the path otherwise; an action
failure propagates as the call's error (the `?` operator); on success the
result echoes the application name and the original (uncanonicalized)
path with `opened: true`. -/
def open_file (act : OpenAction) (params : OpenFileParams) :
    Except String OpenFileResult :=
  let app_name :=
    match params.app with
    | some a => a.app_name
    | none => detect_app_from_path params.path
  match act app_name params.path with
  | .error e => .error e
  | .ok _ => .ok { opened := true, app := app_name, path := params.path }

/-- The action capability behind `export` on macOS: building and running the
export AppleScript, given the requested path, the format string and the
effective quality.  (Canonicalization there falls back to the raw path via
`unwrap_or_else` and cannot fail the call.) -/
def ExportAction : Type := String → String → Nat → Except String Unit

/-- Model of `pub async fn export` (the macOS branch, affinity.rs:337-389),
parameterized by the action capability.  The format string is the lowercase
name of the format; a missing quality defaults to 90; an action failure
propagates as the call's error; on success the result echoes the requested
path with `exported: true`. -/
def «export» (act : ExportAction) (params : ExportParams) :
    Except String ExportResult :=
  let format_str :=
    match params.format with
    | .Pdf => "pdf"
    | .Png => "png"
    | .Jpg => "jpg"
    | .Tiff => "tiff"
    | .Svg => "svg"
  match act params.path format_str (params.quality.getD 90) with
  | .error e => .error e
  | .ok _ => .ok { exported := true, path := params.path }

/-! ## Batch scheduler (`batch_open_files`, `batch_export`) -/

/-- Model of the aggregation loop of `batch_open_files`
(affinity.rs:974-998): each `Ok` outcome is classified by its intrinsic
`opened` flag and pushed; each `Err` outcome is counted as a failure and
replaced by the fixed slot `{opened: false, app: "Error", path: "unknown"}`.
Returns `(success_count, failure_count, results)`. -/
def openLoop : List (Except String OpenFileResult) →
    Nat × Nat × List OpenFileResult
  | [] => (0, 0, [])
  | .ok r :: rest =>
    let acc := openLoop rest
    if r.opened then (acc.1 + 1, acc.2.1, r :: acc.2.2)
    else (acc.1, acc.2.1 + 1, r :: acc.2.2)
  | .error _ :: rest =>
    let acc := openLoop rest
    (acc.1, acc.2.1 + 1, { opened := false, app := "Error", path := "unknown" } :: acc.2.2)

/-- Model of `pub async fn batch_open_files` (affinity.rs:954-1012),
parameterized by the action capability.  The request list is silently
truncated to its first 16 items; each retained path is executed through
`open_file` with the shared optional `app` selector (`join_all` keeps the
results index-aligned with the requests); the aggregation loop absorbs
per-item errors; the function itself always returns `Ok`. -/
def batch_open_files (act : OpenAction) (params : BatchOpenFilesParams) :
    Except String BatchOpenFilesResult :=
  -- 最大16並列に制限
  let paths := params.paths.take 16
  let results := paths.map (fun path => open_file act { path := path, app := params.app })
  let acc := openLoop results
  .ok { success_count := acc.1, failure_count := acc.2.1, results := acc.2.2 }

/-- Model of the aggregation loop of `batch_export` (affinity.rs:1064-1087):
classification is by the intrinsic `exported` flag; the error slot is
`{exported: false, path: "unknown"}`. -/
def exportLoop : List (Except String ExportResult) →
    Nat × Nat × List ExportResult
  | [] => (0, 0, [])
  | .ok r :: rest =>
    let acc := exportLoop rest
    if r.exported then (acc.1 + 1, acc.2.1, r :: acc.2.2)
    else (acc.1, acc.2.1 + 1, r :: acc.2.2)
  | .error _ :: rest =>
    let acc := exportLoop rest
    (acc.1, acc.2.1 + 1, { exported := false, path := "unknown" } :: acc.2.2)

/-- Model of `pub async fn batch_export` (affinity.rs:1045-1101),
parameterized by the action capability; same shape as `batch_open_files`. -/
def batch_export (act : ExportAction) (params : BatchExportParams) :
    Except String BatchExportResult :=
  -- 最大16並列に制限
  let exports := params.exports.take 16
  let results := exports.map (fun export_params => «export» act export_params)
  let acc := exportLoop results
  .ok { success_count := acc.1, failure_count := acc.2.1, results := acc.2.2 }

/-! ## Tool catalog (`get_all_tools`, mcp.rs:244-453) -/

/-- Model of `struct Tool { name, description, input_schema }`. -/
structure Tool where
  name : String
  description : String
  input_schema : Json

/-- Model of `fn get_all_tools() -> Vec<Tool>` (mcp.rs:244-453): the static,
compiled-in catalog, in its source order, schemas included. -/
def get_all_tools : List Tool :=
  [ { name := "affinity.open_file",
      description := "Affinityアプリケーションでファイルを開く（自然言語で「ファイルを開いて」などの指示に対応）",
      input_schema := .obj
        [("type", .str "object"),
         ("properties", .obj
           [("path", .obj
              [("type", .str "string"),
               ("description", .str "開くファイルのパス（絶対パスまたは相対パス）")]),
            ("app", .obj
              [("type", .str "string"),
               ("enum", .arr [.str "Photo", .str "Designer", .str "Publisher"]),
               ("description", .str "使用するAffinityアプリ（省略時は自動判定）")])]),
         ("required", .arr [.str "path"])] },
    { name := "affinity.create_new",
      description := "新しいAffinityドキュメントを作成（自然言語で「新しいドキュメントを作成して」などの指示に対応）",
      input_schema := .obj
        [("type", .str "object"),
         ("properties", .obj
           [("width", .obj
              [("type", .str "number"),
               ("description", .str "幅（ピクセル、省略時はデフォルト）")]),
            ("height", .obj
              [("type", .str "number"),
               ("description", .str "高さ（ピクセル、省略時はデフォルト）")]),
            ("app", .obj
              [("type", .str "string"),
               ("enum", .arr [.str "Photo", .str "Designer", .str "Publisher"]),
               ("description", .str "使用するAffinityアプリ")])]),
         ("required", .arr [.str "app"])] },
    { name := "affinity.export",
      description := "現在開いているAffinityドキュメントをエクスポート（自然言語で「PDFでエクスポートして」などの指示に対応）",
      input_schema := .obj
        [("type", .str "object"),
         ("properties", .obj
           [("path", .obj
              [("type", .str "string"),
               ("description", .str "エクスポート先のファイルパス")]),
            ("format", .obj
              [("type", .str "string"),
               ("enum", .arr [.str "pdf", .str "png", .str "jpg", .str "tiff", .str "svg"]),
               ("description", .str "エクスポートフォーマット")]),
            ("quality", .obj
              [("type", .str "number"),
               ("minimum", .num 1),
               ("maximum", .num 100),
               ("description", .str "品質（1-100、画像形式の場合）")])]),
         ("required", .arr [.str "path", .str "format"])] },
    { name := "affinity.apply_filter",
      description := "画像にフィルターを適用（自然言語で「ぼかしを適用して」などの指示に対応）",
      input_schema := .obj
        [("type", .str "object"),
         ("properties", .obj
           [("filter_name", .obj
              [("type", .str "string"),
               ("description", .str "フィルター名（例: blur, sharpen, desaturate）")]),
            ("intensity", .obj
              [("type", .str "number"),
               ("minimum", .num 0),
               ("maximum", .num 100),
               ("description", .str "強度（0-100）")])]),
         ("required", .arr [.str "filter_name"])] },
    { name := "affinity.get_active_document",
      description := "現在アクティブなドキュメントの情報を取得",
      input_schema := .obj
        [("type", .str "object"), ("properties", .obj [])] },
    { name := "affinity.close_document",
      description := "現在開いているドキュメントを閉じる",
      input_schema := .obj
        [("type", .str "object"), ("properties", .obj [])] },
    { name := "affinity.batch_open_files",
      description := "複数のファイルを16並列で同時に開く（自然言語: 「複数のファイルを同時に開いて」など）",
      input_schema := .obj
        [("type", .str "object"),
         ("properties", .obj
           [("paths", .obj
              [("type", .str "array"),
               ("items", .obj [("type", .str "string")]),
               ("description", .str "開くファイルのパスリスト（最大16個まで）"),
               ("maxItems", .num 16)]),
            ("app", .obj
              [("type", .str "string"),
               ("enum", .arr [.str "Photo", .str "Designer", .str "Publisher"]),
               ("description", .str "使用するAffinityアプリ（省略時は自動判定）")])]),
         ("required", .arr [.str "paths"])] },
    { name := "affinity.batch_export",
      description := "複数のドキュメントを16並列で同時にエクスポート（自然言語: 「複数のファイルを同時にエクスポートして」など）",
      input_schema := .obj
        [("type", .str "object"),
         ("properties", .obj
           [("exports", .obj
              [("type", .str "array"),
               ("items", .obj
                 [("type", .str "object"),
                  ("properties", .obj
                    [("path", .obj
                       [("type", .str "string"),
                        ("description", .str "エクスポート先のファイルパス")]),
                     ("format", .obj
                       [("type", .str "string"),
                        ("enum", .arr [.str "pdf", .str "png", .str "jpg", .str "tiff", .str "svg"]),
                        ("description", .str "エクスポートフォーマット")]),
                     ("quality", .obj
                       [("type", .str "number"),
                        ("minimum", .num 1),
                        ("maximum", .num 100),
                        ("description", .str "品質（1-100、画像形式の場合）")])]),
                  ("required", .arr [.str "path", .str "format"])]),
               ("description", .str "エクスポート設定のリスト（最大16個まで）"),
               ("maxItems", .num 16)])]),
         ("required", .arr [.str "exports"])] },
    { name := "affinity.draw_pikachu",
      description := "ピカチュウを描画してAffinityで開く（自然言語: 「ピカチュウを描いて」「ピカチュウを作って」など）",
      input_schema := .obj
        [("type", .str "object"),
         ("properties", .obj
           [("output_path", .obj
              [("type", .str "string"),
               ("description", .str "出力先のファイルパス（省略時は一時ファイル）")]),
            ("width", .obj
              [("type", .str "number"),
               ("description", .str "キャンバスサイズ（幅、省略時は800）")]),
            ("height", .obj
              [("type", .str "number"),
               ("description", .str "キャンバスサイズ（高さ、省略時は800）")])])] },
    { name := "canva.create_design",
      description := "Canvaでデザインを作成",
      input_schema := .obj
        [("type", .str "object"),
         ("properties", .obj
           [("title", .obj [("type", .str "string")]),
            ("template_id", .obj [("type", .str "string")]),
            ("width", .obj [("type", .str "number")]),
            ("height", .obj [("type", .str "number")])]),
         ("required", .arr [.str "title"])] } ]

/-! ## Tool dispatch (`handle_tool_call`, mcp.rs:468-551) -/

/-- The body of one `handle_tool_call` branch — deserializing the raw
arguments into the tool's parameter type, running the tool (through the
action capability), and serializing the result — abstracted as one fallible
function from the raw JSON arguments to the serialized result.  An error
covers both argument-deserialization failure and tool failure. -/
def ToolBranch : Type := Json → Except String Json

/-- One branch body per registered tool, mirroring the ten match arms of
`handle_tool_call`. -/
structure ToolHandlers where
  open_file : ToolBranch
  create_new : ToolBranch
  exportTool : ToolBranch
  apply_filter : ToolBranch
  get_active_document : ToolBranch
  close_document : ToolBranch
  batch_open_files : ToolBranch
  batch_export : ToolBranch
  draw_pikachu : ToolBranch
  create_design : ToolBranch

/-- Model of `async fn handle_tool_call(name, arguments)` (mcp.rs:468-551):
dispatch on the exact tool name over the ten registered names; any other
name takes the final wildcard arm, which fails with
`"Unknown tool: {name}"`. -/
def handle_tool_call (th : ToolHandlers) (name : String) (arguments : Json) :
    Except String Json :=
  match name with
  | "affinity.open_file" => th.open_file arguments
  | "affinity.create_new" => th.create_new arguments
  | "affinity.export" => th.exportTool arguments
  | "affinity.apply_filter" => th.apply_filter arguments
  | "affinity.get_active_document" => th.get_active_document arguments
  | "affinity.close_document" => th.close_document arguments
  | "affinity.batch_open_files" => th.batch_open_files arguments
  | "affinity.batch_export" => th.batch_export arguments
  | "affinity.draw_pikachu" => th.draw_pikachu arguments
  | "canva.create_design" => th.create_design arguments
  | _ => .error ("Unknown tool: " ++ name)

/-! ## Protocol methods (`build_server`, mcp.rs:135-236) -/

/-- The serialization of `InitializeResult` (camelCase field names,
mcp.rs:168-182): the protocol version is the fixed `"2024-11-05"`, the
server version the fixed `"0.1.0"`, and `listChanged` is `false`. -/
def initialize_result_json (name : String) : Json :=
  .obj
    [("protocolVersion", .str "2024-11-05"),
     ("serverInfo", .obj [("name", .str name), ("version", .str "0.1.0")]),
     ("capabilities", .obj [("tools", .obj [("listChanged", .bool false)])])]

/-- Model of the `"initialize"` method handler (mcp.rs:140-184): the
protocol-version field is looked up under `"protocolVersion"` first and
`"protocol_version"` second and must hold a string, otherwise the call fails
with `invalid_params "missing protocolVersion"`; the client-info field is
looked up under both namings but used only for logging; the response is the
fixed `initialize_result_json`. -/
def initializeHandler (server_name : String) (params_value : Json) :
    Except JsonRpcError Json :=
  -- camelCase形式に統一
  match ((params_value.get "protocolVersion").orElse
      (fun _ => params_value.get "protocol_version")).bind Json.as_str with
  | none => .error (invalid_params "missing protocolVersion")
  | some _ =>
    let client_info := (params_value.get "clientInfo").orElse
      (fun _ => params_value.get "client_info")
    let _client_name := ((client_info.bind (fun ci => ci.get "name")).bind
      Json.as_str).getD "unknown"
    -- クライアント情報はログ出力にのみ使用される
    .ok (initialize_result_json server_name)

/-- Model of the `"tools/call"` method handler (mcp.rs:201-233): the tool
name must be a string under `"name"` (else `invalid_params "missing tool
name"`); missing arguments default to `Null`; a failing `handle_tool_call`
is logged and converted to the generic `internal_error` — the cause never
reaches the response. -/
def toolsCallHandler (th : ToolHandlers) (params_value : Json) :
    Except JsonRpcError Json :=
  match (params_value.get "name").bind Json.as_str with
  | none => .error (invalid_params "missing tool name")
  | some tool_name =>
    let arguments := (params_value.get "arguments").getD .null
    match handle_tool_call th tool_name arguments with
    | .ok result => .ok result
    | .error _ => .error internal_error

/-! ## Derived characterizations of the batch scheduler -/

/-- The error boundary of one batch-open item: an `Ok` outcome passes
through, an `Err` outcome becomes the fixed failure slot (the `match` of
affinity.rs:978-997). -/
def absorbOpen : Except String OpenFileResult → OpenFileResult
  | .ok r => r
  | .error _ => { opened := false, app := "Error", path := "unknown" }

/-- The error boundary of one batch-export item (affinity.rs:1068-1086). -/
def absorbExport : Except String ExportResult → ExportResult
  | .ok r => r
  | .error _ => { exported := false, path := "unknown" }

/-- The outcome slot a batch-open produces for one path: `open_file` run
under the shared optional application selector, with its error absorbed. -/
def openOutcome (act : OpenAction) (app : Option AffinityApp) (path : String) :
    OpenFileResult :=
  absorbOpen (open_file act { path := path, app := app })

/-- The outcome slot a batch-export produces for one export request. -/
def exportOutcome (act : ExportAction) (ep : ExportParams) : ExportResult :=
  absorbExport («export» act ep)

theorem openLoop_spec (rs : List (Except String OpenFileResult)) :
    openLoop rs = ((rs.map absorbOpen).countP (fun o => o.opened),
                   (rs.map absorbOpen).countP (fun o => !o.opened),
                   rs.map absorbOpen) := by
  induction rs with
  | nil => rfl
  | cons head tail ih =>
    cases head with
    | ok r =>
      by_cases hr : r.opened
      · simp [openLoop, absorbOpen, ih, List.countP_cons, hr]
      · simp [openLoop, absorbOpen, ih, List.countP_cons, hr]
    | error e =>
      simp [openLoop, absorbOpen, ih, List.countP_cons]

theorem exportLoop_spec (rs : List (Except String ExportResult)) :
    exportLoop rs = ((rs.map absorbExport).countP (fun o => o.exported),
                     (rs.map absorbExport).countP (fun o => !o.exported),
                     rs.map absorbExport) := by
  induction rs with
  | nil => rfl
  | cons head tail ih =>
    cases head with
    | ok r =>
      by_cases hr : r.exported
      · simp [exportLoop, absorbExport, ih, List.countP_cons, hr]
      · simp [exportLoop, absorbExport, ih, List.countP_cons, hr]
    | error e =>
      simp [exportLoop, absorbExport, ih, List.countP_cons]

/-- Closed form of `batch_open_files`: it always answers `Ok`; the result
slots are the per-item outcomes of the first 16 paths in input order, and
the two counters classify those slots by their intrinsic `opened` flag. -/
theorem batch_open_files_spec (act : OpenAction) (p : BatchOpenFilesParams) :
    batch_open_files act p = .ok
      { success_count :=
          ((p.paths.take 16).map (openOutcome act p.app)).countP (fun o => o.opened),
        failure_count :=
          ((p.paths.take 16).map (openOutcome act p.app)).countP (fun o => !o.opened),
        results := (p.paths.take 16).map (openOutcome act p.app) } := by
  simp only [batch_open_files, openLoop_spec, List.map_map]
  rfl

/-- Closed form of `batch_export`, mirroring `batch_open_files_spec`. -/
theorem batch_export_spec (act : ExportAction) (p : BatchExportParams) :
    batch_export act p = .ok
      { success_count :=
          ((p.exports.take 16).map (exportOutcome act)).countP (fun o => o.exported),
        failure_count :=
          ((p.exports.take 16).map (exportOutcome act)).countP (fun o => !o.exported),
        results := (p.exports.take 16).map (exportOutcome act) } := by
  simp only [batch_export, exportLoop_spec, List.map_map]
  rfl

theorem countP_add_countP_not {α : Type} (q : α → Bool) (l : List α) :
    l.countP q + l.countP (fun a => !q a) = l.length := by
  have h := List.length_eq_countP_add_countP q l
  simpa using h.symm

/-- Unfolding of `open_file` with the `let`-bound application name expanded. -/
theorem open_file_def (act : OpenAction) (params : OpenFileParams) :
    open_file act params =
      match act (match params.app with
          | some a => a.app_name
          | none => detect_app_from_path params.path) params.path with
      | .error e => .error e
      | .ok _ =>
        .ok { opened := true,
              app := (match params.app with
                      | some a => a.app_name
                      | none => detect_app_from_path params.path),
              path := params.path } := rfl

/-- A successful `open_file` echoes the requested path in its result. -/
theorem open_file_ok_path {act : OpenAction} {params : OpenFileParams}
    {res : OpenFileResult} (h : open_file act params = .ok res) :
    res.path = params.path := by
  rw [open_file_def] at h
  cases hact : act (match params.app with
      | some a => a.app_name
      | none => detect_app_from_path params.path) params.path with
  | error e =>
    rw [hact] at h
    exact Except.noConfusion h
  | ok u =>
    rw [hact] at h
    injection h with h2
    rw [← h2]

/-! ## Suffix exclusivity (helper facts for the extension dispatch) -/

theorem suffix_of_suffix_length_le {α : Type} {l₁ l₂ l : List α}
    (h₁ : l₁ <:+ l) (h₂ : l₂ <:+ l) (hl : l₁.length ≤ l₂.length) : l₁ <:+ l₂ := by
  have p₁ : l₁.reverse <+: l.reverse := h₁.reverse
  have p₂ : l₂.reverse <+: l.reverse := h₂.reverse
  have hp : l₁.reverse <+: l₂.reverse :=
    List.prefix_of_prefix_length_le p₁ p₂ (by simpa using hl)
  simpa using hp.reverse

theorem ends_with_excl {s p q : String}
    (hp : ends_with s p = true) (hq : ends_with s q = true)
    (hlen : p.data.length ≤ q.data.length) (hnot : ¬ p.data <:+ q.data) : False := by
  have hp' : p.data <:+ s.data := by
    have := List.isSuffixOf_iff_suffix.mp hp
    exact this
  have hq' : q.data <:+ s.data := by
    have := List.isSuffixOf_iff_suffix.mp hq
    exact this
  exact hnot (suffix_of_suffix_length_le hp' hq' hlen)

theorem not_afphoto_of_afdesign {s : String}
    (h : ends_with s ".afdesign" = true) : ends_with s ".afphoto" = false := by
  by_contra hc
  have hp : ends_with s ".afphoto" = true := by
    cases he : ends_with s ".afphoto" with
    | true => rfl
    | false => exact absurd he hc
  exact ends_with_excl hp h (by decide) (by decide)

theorem not_afphoto_of_afpub {s : String}
    (h : ends_with s ".afpub" = true) : ends_with s ".afphoto" = false := by
  by_contra hc
  have hp : ends_with s ".afphoto" = true := by
    cases he : ends_with s ".afphoto" with
    | true => rfl
    | false => exact absurd he hc
  exact ends_with_excl h hp (by decide) (by decide)

theorem not_afdesign_of_afpub {s : String}
    (h : ends_with s ".afpub" = true) : ends_with s ".afdesign" = false := by
  by_contra hc
  have hp : ends_with s ".afdesign" = true := by
    cases he : ends_with s ".afdesign" with
    | true => rfl
    | false => exact absurd he hc
  exact ends_with_excl h hp (by decide) (by decide)

/-! ## Claims -/

/-- **C1** (counterexample): the chain
`success_count + failure_count == len(results) == len(input)` fails for an
oversized batch call: 17 input paths yield only 16 result slots, so
`len(results) ≠ len(input)` even though all 17 items were accepted without
error. -/
theorem c1_counterexample :
    ∃ r, batch_open_files (fun _ _ => Except.ok ())
        { paths := List.replicate 17 "x", app := none } = .ok r
      ∧ r.success_count + r.failure_count = r.results.length
      ∧ r.results.length = 16
      ∧ (List.replicate 17 "x").length = 17
      ∧ ¬ r.results.length = (List.replicate 17 "x").length := by
  refine ⟨_, batch_open_files_spec _ _, by decide, by decide, by decide, by decide⟩

/-- **C1** (amended): for every batch call (`batch_open_files` or
`batch_export`), under any action capability, the returned result satisfies
`success_count + failure_count == len(results)`, and `len(results)` equals
the length of the **truncated** input, `min len(input) 16` — hence it equals
`len(input)` exactly when the input has at most 16 items.  The counts
classify each slot by its intrinsic `opened`/`exported` flag, not by whether
an error was thrown. -/
theorem c1_count_invariant :
    (∀ (act : OpenAction) (p : BatchOpenFilesParams) r,
        batch_open_files act p = .ok r →
        r.success_count + r.failure_count = r.results.length
          ∧ r.results.length = min 16 p.paths.length
          ∧ r.success_count = r.results.countP (fun o => o.opened)
          ∧ r.failure_count = r.results.countP (fun o => !o.opened))
    ∧ (∀ (act : ExportAction) (p : BatchExportParams) r,
        batch_export act p = .ok r →
        r.success_count + r.failure_count = r.results.length
          ∧ r.results.length = min 16 p.exports.length
          ∧ r.success_count = r.results.countP (fun o => o.exported)
          ∧ r.failure_count = r.results.countP (fun o => !o.exported)) := by
  constructor
  · intro act p r h
    rw [batch_open_files_spec] at h
    cases h
    refine ⟨?_, ?_, rfl, rfl⟩
    · exact countP_add_countP_not _ _
    · simp [List.length_take]
  · intro act p r h
    rw [batch_export_spec] at h
    cases h
    refine ⟨?_, ?_, rfl, rfl⟩
    · exact countP_add_countP_not _ _
    · simp [List.length_take]

/-- **C1** witness: the amended invariant discharged at a concrete batch of
one open and a concrete batch of one export. -/
theorem c1_count_invariant_witness :
    ((1 : Nat) + 0 = 1 ∧ (1 : Nat) = min 16 1
      ∧ (1 : Nat) = [OpenFileResult.mk true "Affinity Photo" "a"].countP (fun o => o.opened)
      ∧ (0 : Nat) = [OpenFileResult.mk true "Affinity Photo" "a"].countP (fun o => !o.opened)) := by
  have h := c1_count_invariant.1 (fun _ _ => Except.ok ())
    { paths := ["a"], app := none }
    { success_count := 1, failure_count := 0,
      results := [{ opened := true, app := "Affinity Photo", path := "a" }] }
    (by rfl)
  exact h

/-- **C2**: an oversized batch request (more than the fixed limit of 16
items) is not rejected: the call still returns `Ok`, exactly 16 results come
back, and the executed items are precisely the first 16 input items in input
order; the rest are silently dropped.  Holds for both `batch_open_files` and
`batch_export`, under any action capability. -/
theorem c2_truncation :
    (∀ (act : OpenAction) (p : BatchOpenFilesParams),
        16 < p.paths.length →
        ∃ r, batch_open_files act p = .ok r
          ∧ r.results.length = 16
          ∧ r.results = (p.paths.take 16).map (openOutcome act p.app))
    ∧ (∀ (act : ExportAction) (p : BatchExportParams),
        16 < p.exports.length →
        ∃ r, batch_export act p = .ok r
          ∧ r.results.length = 16
          ∧ r.results = (p.exports.take 16).map (exportOutcome act)) := by
  constructor
  · intro act p hlen
    refine ⟨_, batch_open_files_spec act p, ?_, rfl⟩
    simp only [List.length_map, List.length_take]
    omega
  · intro act p hlen
    refine ⟨_, batch_export_spec act p, ?_, rfl⟩
    simp only [List.length_map, List.length_take]
    omega

/-- **C2** witness: the truncation property discharged at a concrete batch
of 17 opens and a concrete batch of 17 exports. -/
theorem c2_truncation_witness :
    (∃ r, batch_open_files (fun _ _ => Except.ok ())
        { paths := List.replicate 17 "x", app := none } = .ok r
      ∧ r.results.length = 16
      ∧ r.results = ((List.replicate 17 "x").take 16).map
          (openOutcome (fun _ _ => Except.ok ()) none))
    ∧ (∃ r, batch_export (fun _ _ _ => Except.ok ())
        { exports := List.replicate 17 { path := "y", format := .Png, quality := none } } = .ok r
      ∧ r.results.length = 16
      ∧ r.results = ((List.replicate 17
            ({ path := "y", format := .Png, quality := none } : ExportParams)).take 16).map
          (exportOutcome (fun _ _ _ => Except.ok ()))) :=
  ⟨c2_truncation.1 (fun _ _ => Except.ok ())
      { paths := List.replicate 17 "x", app := none } (by decide),
   c2_truncation.2 (fun _ _ _ => Except.ok ())
      { exports := List.replicate 17 { path := "y", format := .Png, quality := none } }
      (by simp)⟩

/-- **C3**: order preservation.  For a batch of at most 16 requests,
`results[i]` is exactly the outcome of `requests[i]` for every index `i`
(the `join_all` model is index-aligned, so completion order cannot permute
slots), and whenever item `i`'s executor succeeds, `results[i]` carries item
`i`'s own path. -/
theorem c3_order_preservation :
    ∀ (act : OpenAction) (p : BatchOpenFilesParams) (i : Nat),
      p.paths.length ≤ 16 → (hi : i < p.paths.length) →
      ∃ r, batch_open_files act p = .ok r
        ∧ r.results.length = p.paths.length
        ∧ r.results[i]? = some (openOutcome act p.app p.paths[i])
        ∧ ∀ res, open_file act { path := p.paths[i], app := p.app } = .ok res →
            r.results[i]? = some res ∧ res.path = p.paths[i] := by
  intro act p i hle hi
  have htake : p.paths.take 16 = p.paths := List.take_of_length_le hle
  refine ⟨_, batch_open_files_spec act p, ?_, ?_, ?_⟩
  · simp [htake]
  · simp only [htake, List.getElem?_map]
    rw [List.getElem?_eq_getElem hi]
    rfl
  · intro res hres
    constructor
    · simp only [htake, List.getElem?_map]
      rw [List.getElem?_eq_getElem hi, Option.map_some']
      simp only [openOutcome, hres, absorbOpen]
    · exact open_file_ok_path hres

/-- **C3** witness: order preservation discharged at a concrete two-item
batch, index 1. -/
theorem c3_order_preservation_witness :
    ∃ r, batch_open_files (fun _ _ => Except.ok ())
        { paths := ["a", "b"], app := none } = .ok r
      ∧ r.results.length = (["a", "b"] : List String).length
      ∧ r.results[1]? = some (openOutcome (fun _ _ => Except.ok ()) none
          (["a", "b"] : List String)[1])
      ∧ ∀ res, open_file (fun _ _ => Except.ok ())
            { path := (["a", "b"] : List String)[1], app := none } = .ok res →
          r.results[1]? = some res ∧ res.path = (["a", "b"] : List String)[1] :=
  c3_order_preservation (fun _ _ => Except.ok ())
    { paths := ["a", "b"], app := none } 1 (by decide) (by decide)

/-- **C4**: isolation.  For every batch — `batch_open_files` and
`batch_export` alike — under any action capability, the batch call itself
returns `Ok`; each slot depends only on its own request (so one item's
failure cannot change any other item's outcome); an item whose executor
fails gets the failure-variant slot in its own position; and the counters
classify exactly the slots by their intrinsic flag. -/
theorem c4_isolation :
    (∀ (act : OpenAction) (p : BatchOpenFilesParams),
      ∃ r, batch_open_files act p = .ok r
        ∧ (∀ i, (hi : i < (p.paths.take 16).length) →
            r.results[i]? = some (openOutcome act p.app (p.paths.take 16)[i]))
        ∧ r.success_count = r.results.countP (fun o => o.opened)
        ∧ r.failure_count = r.results.countP (fun o => !o.opened)
        ∧ (∀ i, (hi : i < (p.paths.take 16).length) → ∀ e,
            open_file act { path := (p.paths.take 16)[i], app := p.app } = .error e →
            r.results[i]? = some { opened := false, app := "Error", path := "unknown" }))
    ∧ (∀ (act : ExportAction) (p : BatchExportParams),
      ∃ r, batch_export act p = .ok r
        ∧ (∀ i, (hi : i < (p.exports.take 16).length) →
            r.results[i]? = some (exportOutcome act (p.exports.take 16)[i]))
        ∧ r.success_count = r.results.countP (fun o => o.exported)
        ∧ r.failure_count = r.results.countP (fun o => !o.exported)
        ∧ (∀ i, (hi : i < (p.exports.take 16).length) → ∀ e,
            «export» act (p.exports.take 16)[i] = .error e →
            r.results[i]? = some { exported := false, path := "unknown" })) := by
  constructor
  · intro act p
    refine ⟨_, batch_open_files_spec act p, ?_, rfl, rfl, ?_⟩
    · intro i hi
      simp only [List.getElem?_map]
      rw [List.getElem?_eq_getElem hi]
      rfl
    · intro i hi e he
      simp only [List.getElem?_map]
      rw [List.getElem?_eq_getElem hi, Option.map_some']
      simp only [openOutcome, he, absorbOpen]
  · intro act p
    refine ⟨_, batch_export_spec act p, ?_, rfl, rfl, ?_⟩
    · intro i hi
      simp only [List.getElem?_map]
      rw [List.getElem?_eq_getElem hi]
      rfl
    · intro i hi e he
      simp only [List.getElem?_map]
      rw [List.getElem?_eq_getElem hi, Option.map_some']
      simp only [exportOutcome, he, absorbExport]

/-- **C4** witness: isolation discharged at concrete two-item batches — one
open, one export — whose action capability fails exactly on the second
item: the failing item occupies its own slot as a failure variant, the
sibling item's outcome is unchanged, and each batch call returns `Ok`. -/
theorem c4_isolation_witness :
    (∃ r, batch_open_files
        (fun _ path => if path = "b" then Except.error "boom" else Except.ok ())
        { paths := ["a", "b"], app := none } = .ok r
      ∧ r.results[1]? = some { opened := false, app := "Error", path := "unknown" }
      ∧ r.results[0]? = some { opened := true, app := "Affinity Photo", path := "a" })
    ∧ (∃ r, batch_export
        (fun path _ _ => if path = "b" then Except.error "boom" else Except.ok ())
        { exports := [{ path := "a", format := .Png, quality := none },
                      { path := "b", format := .Png, quality := none }] } = .ok r
      ∧ r.results[1]? = some { exported := false, path := "unknown" }
      ∧ r.results[0]? = some { exported := true, path := "a" }) := by
  constructor
  · obtain ⟨r, hr, hslot, _, _, hfail⟩ := c4_isolation.1
      (fun _ path => if path = "b" then Except.error "boom" else Except.ok ())
      { paths := ["a", "b"], app := none }
    refine ⟨r, hr, ?_, ?_⟩
    · exact hfail 1 (by decide) "boom" (by rfl)
    · have h0 := hslot 0 (by decide)
      rw [h0]
      rfl
  · obtain ⟨r, hr, hslot, _, _, hfail⟩ := c4_isolation.2
      (fun path _ _ => if path = "b" then Except.error "boom" else Except.ok ())
      { exports := [{ path := "a", format := .Png, quality := none },
                    { path := "b", format := .Png, quality := none }] }
    refine ⟨r, hr, ?_, ?_⟩
    · exact hfail 1 (by decide) "boom" (by rfl)
    · have h0 := hslot 0 (by decide)
      rw [h0]
      rfl

/-- **C5** (counterexample): for the two-item batch-open of `"a"` and `"b"`
with a capability failing exactly on `"b"`, the counts and the success slot
are as claimed, but `results[1]`'s path field is the fixed `"unknown"`, not
the input value `"b"`: the failing item's identifying path is not echoed. -/
theorem c5_counterexample :
    batch_open_files
        (fun _ path => if path = "b" then Except.error "fail" else Except.ok ())
        { paths := ["a", "b"], app := none }
      = .ok { success_count := 1, failure_count := 1,
              results := [{ opened := true, app := "Affinity Photo", path := "a" },
                          { opened := false, app := "Error", path := "unknown" }] }
    ∧ ("unknown" : String) ≠ "b" := by
  constructor
  · rfl
  · decide

/-- **C5** (amended): for any capability that succeeds on `"a"` and fails on
`"b"` (whatever application name it is given), the two-item batch-open of
`"a"` then `"b"` yields `{success_count: 1, failure_count: 1}`,
`results[0] = {opened: true, app: "Affinity Photo", path: "a"}` (a success
outcome echoing target `"a"`), and `results[1]` the failure-variant outcome
`{opened: false, app: "Error", path: "unknown"}` — the input value `"b"` is
not echoed anywhere in the failing slot. -/
theorem c5_two_item_batch :
    ∀ (act : OpenAction),
      (∀ app, act app "a" = .ok ()) →
      (∀ app, ∃ e, act app "b" = .error e) →
      batch_open_files act { paths := ["a", "b"], app := none }
        = .ok { success_count := 1, failure_count := 1,
                results := [{ opened := true, app := "Affinity Photo", path := "a" },
                            { opened := false, app := "Error", path := "unknown" }] } := by
  intro act hA hB
  obtain ⟨e, hBe⟩ := hB "Affinity Photo"
  have h1 : open_file act { path := "a", app := none } =
      .ok { opened := true, app := "Affinity Photo", path := "a" } := by
    rw [open_file_def]
    have : detect_app_from_path "a" = "Affinity Photo" := rfl
    rw [show (match (none : Option AffinityApp) with
        | some a => a.app_name
        | none => detect_app_from_path "a") = "Affinity Photo" from rfl]
    rw [hA "Affinity Photo"]
  have h2 : open_file act { path := "b", app := none } = .error e := by
    rw [open_file_def]
    rw [show (match (none : Option AffinityApp) with
        | some a => a.app_name
        | none => detect_app_from_path "b") = "Affinity Photo" from rfl]
    rw [hBe]
  have o1 : openOutcome act none "a" =
      { opened := true, app := "Affinity Photo", path := "a" } := by
    simp only [openOutcome, h1, absorbOpen]
  have o2 : openOutcome act none "b" =
      { opened := false, app := "Error", path := "unknown" } := by
    simp only [openOutcome, h2, absorbOpen]
  rw [batch_open_files_spec]
  simp [o1, o2, List.countP_cons]

/-- **C5** witness: the amended two-item scenario discharged at a concrete
capability that fails exactly on `"b"`. -/
theorem c5_two_item_batch_witness :
    batch_open_files
        (fun _ path => if path = "b" then Except.error "fail" else Except.ok ())
        { paths := ["a", "b"], app := none }
      = .ok { success_count := 1, failure_count := 1,
              results := [{ opened := true, app := "Affinity Photo", path := "a" },
                          { opened := false, app := "Error", path := "unknown" }] } :=
  c5_two_item_batch
    (fun _ path => if path = "b" then Except.error "fail" else Except.ok ())
    (fun _ => rfl) (fun _ => ⟨"fail", rfl⟩)

/-- **C9**: `detect_app_from_path` is pure and total — for every path string
it returns exactly one of the three application names, it maps a
(case-insensitive) `.afphoto` / `.afdesign` / `.afpub` extension to
Affinity Photo / Designer / Publisher respectively, and it returns the fixed
default `"Affinity Photo"` whenever none of the three extensions matches;
it never fails. -/
theorem c9_detect_app_total :
    ∀ path : String,
      (detect_app_from_path path = "Affinity Photo"
        ∨ detect_app_from_path path = "Affinity Designer"
        ∨ detect_app_from_path path = "Affinity Publisher")
      ∧ (ends_with (to_lowercase path) ".afphoto" = true →
          detect_app_from_path path = "Affinity Photo")
      ∧ (ends_with (to_lowercase path) ".afdesign" = true →
          detect_app_from_path path = "Affinity Designer")
      ∧ (ends_with (to_lowercase path) ".afpub" = true →
          detect_app_from_path path = "Affinity Publisher")
      ∧ (ends_with (to_lowercase path) ".afphoto" = false →
          ends_with (to_lowercase path) ".afdesign" = false →
          ends_with (to_lowercase path) ".afpub" = false →
          detect_app_from_path path = "Affinity Photo") := by
  intro path
  refine ⟨?_, ?_, ?_, ?_, ?_⟩
  · by_cases h1 : ends_with (to_lowercase path) ".afphoto"
      <;> by_cases h2 : ends_with (to_lowercase path) ".afdesign"
      <;> by_cases h3 : ends_with (to_lowercase path) ".afpub"
      <;> simp [detect_app_from_path, h1, h2, h3]
  · intro h1
    simp [detect_app_from_path, h1]
  · intro h2
    have h1 := not_afphoto_of_afdesign h2
    simp [detect_app_from_path, h1, h2]
  · intro h3
    have h1 := not_afphoto_of_afpub h3
    have h2 := not_afdesign_of_afpub h3
    simp [detect_app_from_path, h1, h2, h3]
  · intro h1 h2 h3
    simp [detect_app_from_path, h1, h2, h3]

/-- **C9** witness: the extension dispatch discharged at concrete paths of
each kind, mixed case included. -/
theorem c9_detect_app_total_witness :
    detect_app_from_path "pic.afphoto" = "Affinity Photo"
    ∧ detect_app_from_path "X.AFDesign" = "Affinity Designer"
    ∧ detect_app_from_path "doc.AfPub" = "Affinity Publisher"
    ∧ detect_app_from_path "note.txt" = "Affinity Photo" :=
  ⟨(c9_detect_app_total "pic.afphoto").2.1 (by decide),
   (c9_detect_app_total "X.AFDesign").2.2.1 (by decide),
   (c9_detect_app_total "doc.AfPub").2.2.2.1 (by decide),
   (c9_detect_app_total "note.txt").2.2.2.2 (by decide) (by decide) (by decide)⟩

/-- **C6**: dual-naming tolerance of the handshake.  Two initialize requests
that are identical except that one uses the camelCase field names
(`protocolVersion`, `clientInfo`) and the other the snake_case names
(`protocol_version`, `client_info`) for the same values produce identical
responses. -/
theorem c6_dual_naming :
    ∀ (server_name pv : String) (caps ci : Json),
      initializeHandler server_name (Json.obj
        [("protocolVersion", .str pv), ("capabilities", caps), ("clientInfo", ci)])
      = initializeHandler server_name (Json.obj
        [("protocol_version", .str pv), ("capabilities", caps), ("client_info", ci)]) := by
  intro server_name pv caps ci
  rfl

/-- **C7**: an initialize request whose parameters hold no string-valued
protocol-version field under either accepted name fails with
`InvalidParams` (`"missing protocolVersion"`) and returns no success
result. -/
theorem c7_missing_protocol_version :
    ∀ (server_name : String) (p : Json),
      (p.get "protocolVersion").bind Json.as_str = none →
      (p.get "protocol_version").bind Json.as_str = none →
      initializeHandler server_name p
        = .error (invalid_params "missing protocolVersion") := by
  intro server_name p h1 h2
  unfold initializeHandler
  cases hc : p.get "protocolVersion" with
  | none =>
    have h2a : ((none : Option Json).orElse
        (fun _ => p.get "protocol_version")).bind Json.as_str = none := h2
    rw [h2a]
  | some v =>
    rw [hc] at h1
    have h1a : (((some v : Option Json)).orElse
        (fun _ => p.get "protocol_version")).bind Json.as_str = none := h1
    rw [h1a]

/-- **C7** witness: the empty parameter object carries no protocol-version
field under either name and is rejected with `InvalidParams`. -/
theorem c7_missing_protocol_version_witness :
    initializeHandler "affinity-mcp" (Json.obj [])
      = .error (invalid_params "missing protocolVersion") :=
  c7_missing_protocol_version "affinity-mcp" (Json.obj []) rfl rfl

/-- Branch bodies that always succeed with `Null`; used to observe which
dispatch branch `handle_tool_call` takes: the wildcard (Unknown-tool) branch
fails no matter what the branch bodies do, while a registered branch
returns its body's answer. -/
def okHandlers : ToolHandlers :=
  { open_file := fun _ => .ok .null,
    create_new := fun _ => .ok .null,
    exportTool := fun _ => .ok .null,
    apply_filter := fun _ => .ok .null,
    get_active_document := fun _ => .ok .null,
    close_document := fun _ => .ok .null,
    batch_open_files := fun _ => .ok .null,
    batch_export := fun _ => .ok .null,
    draw_pikachu := fun _ => .ok .null,
    create_design := fun _ => .ok .null }

/-- **C8**: a `tools/call` whose tool name is absent from the registry hits
the Unknown-tool arm of `handle_tool_call`; and whenever `handle_tool_call`
returns a terminal error — unknown tool, argument-deserialization failure
or handler failure alike — the response is the fixed generic
`internal_error` (`code -32603`, message `"Internal error"`), which is
independent of the cause: the specific cause is only logged, never sent. -/
theorem c8_generic_internal_error :
    ∀ (th : ToolHandlers) (name : String) (args : Json),
      (name ∉ get_all_tools.map Tool.name →
        handle_tool_call th name args = .error ("Unknown tool: " ++ name))
      ∧ (∀ e, handle_tool_call th name args = .error e →
          toolsCallHandler th (Json.obj [("name", .str name), ("arguments", args)])
            = .error internal_error)
      ∧ internal_error = { code := -32603, message := "Internal error" } := by
  intro th name args
  refine ⟨?_, ?_, rfl⟩
  · intro hmem
    simp only [get_all_tools, List.map, List.mem_cons, List.not_mem_nil] at hmem
    push_neg at hmem
    obtain ⟨n1, n2, n3, n4, n5, n6, n7, n8, n9, n10, -⟩ := hmem
    unfold handle_tool_call
    split
    · exact absurd rfl n1
    · exact absurd rfl n2
    · exact absurd rfl n3
    · exact absurd rfl n4
    · exact absurd rfl n5
    · exact absurd rfl n6
    · exact absurd rfl n7
    · exact absurd rfl n8
    · exact absurd rfl n9
    · exact absurd rfl n10
    · rfl
  · intro e he
    show (match handle_tool_call th name args with
      | Except.ok result => Except.ok result
      | Except.error _ => Except.error internal_error) = Except.error internal_error
    rw [he]

/-- **C8** witness: a concrete unregistered tool name (`"nope"`) takes the
Unknown-tool arm, and the resulting `tools/call` response is the fixed
generic internal error. -/
theorem c8_generic_internal_error_witness :
    handle_tool_call okHandlers "nope" .null = .error ("Unknown tool: " ++ "nope")
    ∧ toolsCallHandler okHandlers
        (Json.obj [("name", .str "nope"), ("arguments", .null)])
      = .error internal_error := by
  have h := c8_generic_internal_error okHandlers "nope" Json.null
  have hu := h.1 (by decide)
  exact ⟨hu, h.2.1 _ hu⟩

/-- **C10**: every tool name exposed by `get_all_tools` (hence via
`tools/list`) is dispatchable — on such a name `handle_tool_call` reaches
that tool's branch, never the Unknown-tool arm (observed here with branch
bodies that always succeed: the Unknown-tool arm fails regardless of the
bodies, yet every listed name succeeds).  The converse does not extend to
all implemented operations: the handlers `draw_shape`, `add_text` and
`change_color` exist in the source but are neither listed in the catalog
nor dispatchable — any name for them falls through to the Unknown-tool
arm for every choice of branch bodies. -/
theorem c10_listed_names_dispatchable :
    (∀ name, name ∈ get_all_tools.map Tool.name →
      ∀ args, handle_tool_call okHandlers name args = .ok .null)
    ∧ (∀ (th : ToolHandlers) (args : Json),
        handle_tool_call th "affinity.draw_shape" args
          = .error ("Unknown tool: " ++ "affinity.draw_shape")
        ∧ handle_tool_call th "affinity.add_text" args
          = .error ("Unknown tool: " ++ "affinity.add_text")
        ∧ handle_tool_call th "affinity.change_color" args
          = .error ("Unknown tool: " ++ "affinity.change_color"))
    ∧ "affinity.draw_shape" ∉ get_all_tools.map Tool.name
    ∧ "affinity.add_text" ∉ get_all_tools.map Tool.name
    ∧ "affinity.change_color" ∉ get_all_tools.map Tool.name := by
  refine ⟨?_, ?_, by decide, by decide, by decide⟩
  · intro name hmem args
    simp only [get_all_tools, List.map, List.mem_cons, List.not_mem_nil,
      or_false] at hmem
    rcases hmem with rfl | rfl | rfl | rfl | rfl | rfl | rfl | rfl | rfl | rfl
      <;> rfl
  · intro th args
    exact ⟨rfl, rfl, rfl⟩

/-- **C10** witness: dispatchability discharged at the concrete listed name
`"affinity.open_file"`. -/
theorem c10_listed_names_dispatchable_witness :
    handle_tool_call okHandlers "affinity.open_file" .null = .ok .null :=
  c10_listed_names_dispatchable.1 "affinity.open_file" (by decide) .null
